import Mathlib

/-!
# Verification of the BuildStream artifact cache core

A shallow embedding of `buildstream/_artifact.py` (the `Artifact` class).
The collaborators of `Artifact` — the content-addressable store (CAS), the
`CasBasedDirectory` virtual directory, the `_yaml` helpers and the `Element`
class — are not part of the source under verification; where a claim depends
on them they are modelled from the specification (their model definitions say
so in their doc comments).  The `Artifact` methods themselves (`cached`,
`cached_logs`, `cache`, `get_extract_key`, `load_build_result`,
`load_public_data` and the four `get_metadata_*` accessors) are translated
from the Python source over those modelled primitives.

State that the Python methods mutate (the memo fields `_metadata_keys`,
`_metadata_dependencies`, `_metadata_workspaced`,
`_metadata_workspaced_dependencies`) is embedded by explicit state passing:
each accessor returns its value together with the updated handle.  A ghost
field `parseLog` records, in order, the names of the YAML files the handle
has parsed; it corresponds to no Python state and lets theorems speak about
"re-parsing".
-/

namespace Buildstream

/-- Modelled from the spec (§7 error taxonomy): the failure kinds surfaced by
the CAS, the YAML loader and the artifact cache.  `artifactError` stands for
the `ArtifactError` exception raised by `get_artifact_directory` when the ref
or the top-level artifact directory is missing; `loadError` for the
`LoadError` raised by `_yaml.node_get` on a missing or ill-typed field
(the spec's `SchemaMismatch`). -/
inductive Err where
  | notFound
  | malformed
  | ioFailed
  | artifactError
  | loadError
  deriving DecidableEq, Repr

/-- Modelled from the spec (§6 metadata file formats): parsed YAML values as
produced by `_yaml.load` — null, booleans, strings, lists and string-keyed
mappings (mappings keep their key order). -/
inductive YVal where
  | ynull
  | ybool (b : Bool)
  | ystr (s : String)
  | ylist (l : List YVal)
  | ymap (m : List (String × YVal))

/-- Modelled from the spec (§3 directory manifest, §4.2 virtual directory):
a CAS-backed directory tree.  Every file and directory node carries the
`Nat` that abstracts its digest; digest values themselves are not the
subject of any claim, only local presence of digests in the store is
(see `containsDirectory`).  Symlink targets are never chased. -/
inductive Tree where
  | file (digest : Nat)
  | symlink (target : String)
  | dir (digest : Nat) (children : List (String × Tree))

/-- First-match association lookup, as the virtual directory's child lookup
and the YAML mapping field lookup behave (names are unique in both). -/
def assocLookup {β : Type} : List (String × β) → String → Option β
  | [], _ => none
  | (n, v) :: rest, name => if n = name then some v else assocLookup rest name

/-- Modelled from the spec (§4.2): `get_child_digest(name)` — the named
child's subtree, `none` when absent (the Python call raises `NotFound`). -/
def Tree.getChild : Tree → String → Option Tree
  | .dir _ cs, name => assocLookup cs name
  | _, _ => none

/-- Modelled from the spec (§4.2): `_exists(name)` — pure existence query. -/
def Tree.existsChild (t : Tree) (name : String) : Bool :=
  (t.getChild name).isSome

mutual

/-- Modelled from the spec (§4.1): `contains_directory(root, with_files)` on a
CAS whose locally present manifest digests are `mans` and locally present
file-blob digests are `blobs`.  With `withFiles = false` every transitively
reachable manifest must be present; with `withFiles = true` every reachable
file entry's blob must be present as well.  Symlink targets are not chased. -/
def containsDirectory (mans blobs : List Nat) (withFiles : Bool) : Tree → Bool
  | .file d => !withFiles || blobs.contains d
  | .symlink _ => true
  | .dir d cs => mans.contains d && containsChildren mans blobs withFiles cs

/-- Child-list traversal of `containsDirectory`. -/
def containsChildren (mans blobs : List Nat) (withFiles : Bool) :
    List (String × Tree) → Bool
  | [] => true
  | (_, t) :: rest =>
    containsDirectory mans blobs withFiles t &&
      containsChildren mans blobs withFiles rest

end

/-- The policy pair the context supplies to `Artifact.cached`
(`context.require_artifact_directories`, `context.require_artifact_files`). -/
structure Context where
  require_artifact_directories : Bool
  require_artifact_files : Bool

/-- The state of one `Artifact` handle.

* `cache_key` / `weak_cache_key` — the constructor arguments `strong_key` and
  `weak_key` (`None` embedded as `none`).
* `element_cached` — the result of `self._element._cached()` (the `Element`
  class is not part of the source under verification).
* `files_required` — the result of `self._element._artifact_files_required()`.
* `ctx` — the policy pair read from the context.
* `rootResult` — the outcome of `self._get_directory()`: the artifact root
  tree, or the exception that call raises (`artifactError` when the ref or
  top-level artifact directory is missing, `malformed`/`ioFailed` from the
  underlying CAS).
* `metaResult` — the outcome of descending into `meta/` and reading its file
  contents through `_objpath` + `_yaml.load`: the association of file name to
  parsed YAML value (modelled from the spec, the CAS blob store being outside
  the source: by spec invariant P1 a committed blob reads back verbatim).
* `casManifests` / `casBlobs` — the digests locally present in the CAS.
* `metadata_keys`, `metadata_dependencies`, `metadata_workspaced`,
  `metadata_workspaced_dependencies` — the four memo fields of the handle.
* `parseLog` — ghost: the YAML file names parsed so far, in order. -/
structure Artifact where
  cache_key : Option String
  weak_cache_key : Option String
  element_cached : Bool
  files_required : Bool
  ctx : Context
  rootResult : Except Err Tree
  metaResult : Except Err (List (String × YVal))
  casManifests : List Nat
  casBlobs : List Nat
  metadata_keys : Option (String × String)
  metadata_dependencies : Option YVal
  metadata_workspaced : Option Bool
  metadata_workspaced_dependencies : Option (List YVal)
  parseLog : List String

/-- Python truthiness of an optional string: `None` and `""` are falsy,
every other string is truthy. -/
def pyTruthy : Option String → Bool
  | none => false
  | some s => !(s == "")

/-- `get_extract_key`: the Python expression
`self._cache_key or self._weak_cache_key`. -/
def Artifact.get_extract_key (a : Artifact) : Option String :=
  if pyTruthy a.cache_key then a.cache_key else a.weak_cache_key

/-- Modelled from the spec (§7 `SchemaMismatch`):
`_yaml.node_get(node, str, key)` without a default — the node must be a
mapping, the key present, the value a string; otherwise `LoadError`. -/
def node_get_str (y : YVal) (key : String) : Except Err String :=
  match y with
  | .ymap m =>
    match assocLookup m key with
    | some (.ystr s) => .ok s
    | some _ => .error .loadError
    | none => .error .loadError
  | _ => .error .loadError

/-- Modelled from the spec: `_yaml.node_get(node, str, key,
default_value=None)` — a missing key yields the default `None`; a present
key must hold a string. -/
def node_get_str_default (y : YVal) (key : String) : Except Err (Option String) :=
  match y with
  | .ymap m =>
    match assocLookup m key with
    | some (.ystr s) => .ok (some s)
    | some _ => .error .loadError
    | none => .ok none
  | _ => .error .loadError

/-- Modelled from the spec: `_yaml.node_get(node, bool, key)` without a
default — the node must be a mapping, the key present, the value a boolean. -/
def node_get_bool (y : YVal) (key : String) : Except Err Bool :=
  match y with
  | .ymap m =>
    match assocLookup m key with
    | some (.ybool b) => .ok b
    | some _ => .error .loadError
    | none => .error .loadError
  | _ => .error .loadError

/-- Modelled from the spec: `_yaml.node_get(node, list, key)` without a
default — the node must be a mapping, the key present, the value a list. -/
def node_get_list (y : YVal) (key : String) : Except Err (List YVal)
  :=
  match y with
  | .ymap m =>
    match assocLookup m key with
    | some (.ylist l) => .ok l
    | some _ => .error .loadError
    | none => .error .loadError
  | _ => .error .loadError

/-- Modelled from the spec (§8 round-trip): `_yaml.node_sanitize` converts a
loaded YAML node into plain data, preserving content and key order; on the
parsed-value representation it is the identity. -/
def node_sanitize (y : YVal) : YVal := y

/-- `_yaml.node_sanitize` applied to a list value. -/
def node_sanitize_list (l : List YVal) : List YVal := l

/-- `Artifact.cached()`, translated from the source.  `self._get_directory()`
is the stored `rootResult`; an `ArtifactError` from it (ref or top-level
artifact directory missing) is caught and turned into `false`, any other
exception propagates.  Then the `meta` child digest must be locally present
with files; and when a `files` child exists, it is checked against the
policy: `require_files` is `context.require_artifact_files or
self._element._artifact_files_required()`, and the check is skipped
entirely unless `require_directories`. -/
def Artifact.cached (a : Artifact) : Except Err Bool :=
  match a.rootResult with
  | .error Err.artifactError => .ok false
  | .error e => .error e
  | .ok vdir =>
    match vdir.getChild "meta" with
    | none => .error .notFound
    | some metadigest =>
      if !(containsDirectory a.casManifests a.casBlobs true metadigest) then
        .ok false
      else if vdir.existsChild "files" then
        let require_directories := a.ctx.require_artifact_directories
        let require_files := a.ctx.require_artifact_files || a.files_required
        match vdir.getChild "files" with
        | none => .error .notFound
        | some filesdigest =>
          if require_directories &&
              !(containsDirectory a.casManifests a.casBlobs require_files filesdigest) then
            .ok false
          else
            .ok true
      else
        .ok true

/-- `Artifact.cached_logs()`, translated from the source: returns `false`
when `self._element._cached()` is false; otherwise descends into `logs/`
(raising when it is absent) and asks the CAS for deep presence of its
digest. -/
def Artifact.cached_logs (a : Artifact) : Except Err Bool :=
  if !a.element_cached then .ok false
  else
    match a.rootResult with
    | .error e => .error e
    | .ok vdir =>
      match vdir.getChild "logs" with
      | none => .error .notFound
      | some logsdigest =>
        .ok (containsDirectory a.casManifests a.casBlobs true logsdigest)

/-- `Artifact.buildtree_exists()`, translated from the source. -/
def Artifact.buildtree_exists (a : Artifact) : Except Err Bool :=
  match a.rootResult with
  | .error e => .error e
  | .ok vdir => .ok (vdir.existsChild "buildtree")

/-- `Artifact.load_build_result()`, translated from the source: when
`meta/build-result.yaml` does not exist the default
`(True, "succeeded", None)` is returned without parsing anything; otherwise
the file is parsed and `success` (required bool), `description` and
`detail` (optional strings, default `None`) are extracted. -/
def Artifact.load_build_result (a : Artifact) :
    Except Err ((Bool × Option String × Option String) × Artifact) :=
  match a.metaResult with
  | .error e => .error e
  | .ok meta =>
    match assocLookup meta "build-result.yaml" with
    | none => .ok ((true, some "succeeded", none), a)
    | some data =>
      match node_get_bool data "success" with
      | .error e => .error e
      | .ok success =>
        match node_get_str_default data "description" with
        | .error e => .error e
        | .ok description =>
          match node_get_str_default data "detail" with
          | .error e => .error e
          | .ok detail =>
            .ok ((success, description, detail),
              { a with parseLog := a.parseLog ++ ["build-result.yaml"] })

/-- `Artifact.load_public_data()`, translated from the source: parses
`meta/public.yaml` on every call and returns the loaded node; no memo
field exists for it. -/
def Artifact.load_public_data (a : Artifact) : Except Err (YVal × Artifact) :=
  match a.metaResult with
  | .error e => .error e
  | .ok meta =>
    match assocLookup meta "public.yaml" with
    | none => .error .notFound
    | some data =>
      .ok (data, { a with parseLog := a.parseLog ++ ["public.yaml"] })

/-- `Artifact.get_metadata_keys()`, translated from the source: memo hit
returns the stored tuple; otherwise `meta/keys.yaml` is parsed, `strong`
and `weak` extracted as strings, and the tuple cached on the handle. -/
def Artifact.get_metadata_keys (a : Artifact) :
    Except Err ((String × String) × Artifact) :=
  match a.metadata_keys with
  | some k => .ok (k, a)
  | none =>
    match a.metaResult with
    | .error e => .error e
    | .ok meta =>
      match assocLookup meta "keys.yaml" with
      | none => .error .notFound
      | some data =>
        match node_get_str data "strong" with
        | .error e => .error e
        | .ok strong_key =>
          match node_get_str data "weak" with
          | .error e => .error e
          | .ok weak_key =>
            .ok ((strong_key, weak_key),
              { a with metadata_keys := some (strong_key, weak_key),
                       parseLog := a.parseLog ++ ["keys.yaml"] })

/-- `Artifact.get_metadata_dependencies()`, translated from the source:
memo hit returns the stored node; otherwise `meta/dependencies.yaml` is
parsed and the whole loaded node cached on the handle. -/
def Artifact.get_metadata_dependencies (a : Artifact) :
    Except Err (YVal × Artifact) :=
  match a.metadata_dependencies with
  | some m => .ok (m, a)
  | none =>
    match a.metaResult with
    | .error e => .error e
    | .ok meta =>
      match assocLookup meta "dependencies.yaml" with
      | none => .error .notFound
      | some data =>
        .ok (data,
          { a with metadata_dependencies := some data,
                   parseLog := a.parseLog ++ ["dependencies.yaml"] })

/-- `Artifact.get_metadata_workspaced()`, translated from the source. -/
def Artifact.get_metadata_workspaced (a : Artifact) :
    Except Err (Bool × Artifact) :=
  match a.metadata_workspaced with
  | some b => .ok (b, a)
  | none =>
    match a.metaResult with
    | .error e => .error e
    | .ok meta =>
      match assocLookup meta "workspaced.yaml" with
      | none => .error .notFound
      | some data =>
        match node_get_bool data "workspaced" with
        | .error e => .error e
        | .ok b =>
          .ok (b,
            { a with metadata_workspaced := some b,
                     parseLog := a.parseLog ++ ["workspaced.yaml"] })

/-- `Artifact.get_metadata_workspaced_dependencies()`, translated from the
source: extracts the `workspaced-dependencies` list, sanitizes it, and
caches it on the handle. -/
def Artifact.get_metadata_workspaced_dependencies (a : Artifact) :
    Except Err (List YVal × Artifact) :=
  match a.metadata_workspaced_dependencies with
  | some l => .ok (l, a)
  | none =>
    match a.metaResult with
    | .error e => .error e
    | .ok meta =>
      match assocLookup meta "workspaced-dependencies.yaml" with
      | none => .error .notFound
      | some data =>
        match node_get_list data "workspaced-dependencies" with
        | .error e => .error e
        | .ok l =>
          .ok (node_sanitize_list l,
            { a with metadata_workspaced_dependencies := some (node_sanitize_list l),
                     parseLog := a.parseLog ++ ["workspaced-dependencies.yaml"] })

/-- One build-time dependency of the element, as `Artifact.cache` consumes
it: its `name`, its `_get_cache_key()` and the truthiness of
`_get_workspace()` (the `Element` class is outside the source under
verification). -/
structure Dep where
  name : String
  key : String
  workspaced : Bool

/-- `utils._deduplicate`: drop duplicates, keeping the first occurrence and
the original order. -/
def pyDeduplicate {α : Type} [DecidableEq α] (l : List α) : List α :=
  l.foldl (fun acc x => if acc.contains x then acc else acc ++ [x]) []

/-- YAML value written for an optional string (`None` serializes as null). -/
def yamlOfOption : Option String → YVal
  | some s => .ystr s
  | none => .ynull

/-- What `Artifact.cache()` produces: the assembled root tree, the metadata
files written into the real `meta/` directory and imported (name, parsed
content, in the order the source writes them), and the deduplicated
reference keys passed to `self._artifacts.commit`. -/
structure CacheResult where
  root : Tree
  metaFiles : List (String × YVal)
  refKeys : List (Option String)

/-- `Artifact.cache()`, translated from the source.  The root gets `logs/`
and `meta/` children unconditionally; `files/` only when `collectvdir is
not None`; `buildtree/` only when `sandbox_build_dir` is truthy (virtual
directory objects are always truthy, so: supplied).  Six YAML documents are
written into the real `meta/` directory — `public.yaml`,
`build-result.yaml` (omitting `detail` when null), `keys.yaml`,
`dependencies.yaml`, `workspaced.yaml`, `workspaced-dependencies.yaml` —
and imported.  `logs/` holds `build.log`, copied from the context's log
file when one exists (`log_filename` is its content digest).  Digest
fields of freshly assembled nodes are abstracted as `0`: no claim is about
the digest values, and the written file contents travel in `metaFiles`. -/
def Artifact.cache (a : Artifact) (sandbox_build_dir collectvdir : Option Tree)
    (buildresult : Bool × String × Option String) (publicdata : YVal)
    (deps : List Dep) (log_filename : Option Nat) (workspaced : Bool) :
    CacheResult :=
  let metaFiles : List (String × YVal) :=
    [("public.yaml", node_sanitize publicdata),
     ("build-result.yaml", .ymap
        ([("success", .ybool buildresult.1), ("description", .ystr buildresult.2.1)] ++
         (match buildresult.2.2 with
          | some d => [("detail", .ystr d)]
          | none => []))),
     ("keys.yaml", node_sanitize (.ymap
        [("strong", yamlOfOption a.cache_key), ("weak", yamlOfOption a.weak_cache_key)])),
     ("dependencies.yaml", node_sanitize (.ymap
        (deps.map (fun e => (e.name, .ystr e.key))))),
     ("workspaced.yaml", node_sanitize (.ymap
        [("workspaced", .ybool workspaced)])),
     ("workspaced-dependencies.yaml", node_sanitize (.ymap
        [("workspaced-dependencies", .ylist
           ((deps.filter (fun e => e.workspaced)).map (fun e => .ystr e.name)))]))]
  let logsTree : Tree := .dir 0
    (match log_filename with
     | some d => [("build.log", .file d)]
     | none => [])
  let metaTree : Tree := .dir 0 (metaFiles.map (fun p => (p.1, Tree.file 0)))
  let children : List (String × Tree) :=
    [("logs", logsTree), ("meta", metaTree)] ++
    (match collectvdir with
     | some c => [("files", c)]
     | none => []) ++
    (match sandbox_build_dir with
     | some b => [("buildtree", b)]
     | none => [])
  { root := .dir 0 children,
    metaFiles := metaFiles,
    refKeys := pyDeduplicate [a.cache_key, a.weak_cache_key] }

/-- The six well-known metadata file names the commit procedure writes, in
the order the source writes them. -/
def wellKnownMetaFiles : List String :=
  ["public.yaml", "build-result.yaml", "keys.yaml", "dependencies.yaml",
   "workspaced.yaml", "workspaced-dependencies.yaml"]

/-- Modelled from the spec (§3 "Artifact tree"): a root is valid when its
`meta/` child and the well-known metadata files inside it are present.  The
spec counts "five" files; the source's commit procedure writes the six of
`wellKnownMetaFiles` (see the theorems for claim C5). -/
def validRoot (t : Tree) : Bool :=
  match t.getChild "meta" with
  | none => false
  | some m => wellKnownMetaFiles.all (fun n => m.existsChild n)

/-- The handle obtained by re-opening an artifact right after committing
`res`: the root resolves to the committed tree, the `meta/` contents read
back verbatim (spec invariant P1: a committed blob reads back byte-equal),
and no memo field is populated yet. -/
def Artifact.afterCommit (a : Artifact) (res : CacheResult) : Artifact :=
  { a with rootResult := .ok res.root,
           metaResult := .ok res.metaFiles,
           metadata_keys := none,
           metadata_dependencies := none,
           metadata_workspaced := none,
           metadata_workspaced_dependencies := none,
           parseLog := [] }

/-- A concrete handle with empty/default collaborator state, the template
for the concrete instances that witness theorems evaluate. -/
def baseArtifact : Artifact :=
  { cache_key := none, weak_cache_key := none, element_cached := true,
    files_required := false,
    ctx := { require_artifact_directories := true, require_artifact_files := true },
    rootResult := .error Err.artifactError, metaResult := .error Err.notFound,
    casManifests := [], casBlobs := [],
    metadata_keys := none, metadata_dependencies := none,
    metadata_workspaced := none, metadata_workspaced_dependencies := none,
    parseLog := [] }

/-- Run `load_build_result` for its state effect only (identity on error). -/
def lbrStep (a : Artifact) : Artifact :=
  match a.load_build_result with
  | .ok (_, a') => a'
  | .error _ => a

/-- A handle whose `meta/` holds a parsable `build-result.yaml`. -/
def cx4 : Artifact :=
  { baseArtifact with
    metaResult := .ok [("build-result.yaml",
      .ymap [("success", .ybool true), ("description", .ystr "succeeded")])] }

/-- A concrete commit: no files, no buildtree, empty public data, no deps. -/
def cx5 : CacheResult :=
  baseArtifact.cache none none (true, "ok", none) (.ymap []) [] none false

/-- The `logs/` subtree of the concrete artifact `cx8`. -/
def cx8logs : Tree := .dir 2 [("build.log", .file 10)]

/-- The root tree of the concrete artifact `cx8`. -/
def cx8root : Tree := .dir 1 [("logs", cx8logs), ("meta", .dir 3 [])]

/-- A handle whose logs are fully present in the CAS but whose element is
not cached. -/
def cx8 : Artifact :=
  { baseArtifact with
    element_cached := false,
    rootResult := .ok cx8root,
    casManifests := [1, 2, 3],
    casBlobs := [10] }

/-- The `meta/` subtree of the concrete artifact root `w1root`. -/
def w1meta : Tree := .dir 2 [("keys.yaml", .file 5)]

/-- A concrete artifact root with only a `meta/` child. -/
def w1root : Tree := .dir 1 [("meta", w1meta)]

/-- A handle whose root resolves to `w1root`, fully present in the CAS. -/
def w1 : Artifact :=
  { baseArtifact with
    rootResult := .ok w1root,
    casManifests := [1, 2],
    casBlobs := [5] }

/-- A handle carrying concrete strong and weak cache keys. -/
def w6 : Artifact :=
  { baseArtifact with
    cache_key := some "sk",
    weak_cache_key := some "wk" }

/-- A handle with a cached element and fully present logs. -/
def w8 : Artifact :=
  { baseArtifact with
    rootResult := .ok cx8root,
    casManifests := [1, 2, 3],
    casBlobs := [10] }

/-- A handle whose `meta/` holds all four `get_metadata_*` files. -/
def w10 : Artifact :=
  { baseArtifact with
    metaResult := .ok
      [("keys.yaml", .ymap [("strong", .ystr "sk"), ("weak", .ystr "wk")]),
       ("dependencies.yaml", .ymap [("dep", .ystr "k1")]),
       ("workspaced.yaml", .ymap [("workspaced", .ybool false)]),
       ("workspaced-dependencies.yaml",
         .ymap [("workspaced-dependencies", .ylist [])])] }

/-- The handle `w10` after its first `get_metadata_keys` call. -/
def w10k : Artifact :=
  { w10 with
    metadata_keys := some ("sk", "wk"),
    parseLog := ["keys.yaml"] }

/-- C7: `get_extract_key()` returns the strong cache key when it is set
(truthy: non-null and non-empty, as the Python `or` tests), and otherwise
returns the weak cache key. -/
theorem get_extract_key_spec (a : Artifact) :
    (pyTruthy a.cache_key = true → a.get_extract_key = a.cache_key) ∧
    (pyTruthy a.cache_key = false → a.get_extract_key = a.weak_cache_key) := by
  constructor <;> intro h <;> simp [Artifact.get_extract_key, h]

/-- Witness for C7: a handle with both keys set yields the strong key, a
handle with no strong key yields the weak key. -/
theorem get_extract_key_spec_witness :
    ({ w6 with weak_cache_key := some "wk" } : Artifact).get_extract_key = some "sk" ∧
    ({ baseArtifact with weak_cache_key := some "wk" } : Artifact).get_extract_key = some "wk" := by
  constructor
  · have h := (get_extract_key_spec { w6 with weak_cache_key := some "wk" }).1 (by rfl)
    simpa using h
  · have h := (get_extract_key_spec { baseArtifact with weak_cache_key := some "wk" }).2 (by rfl)
    simpa using h

/-- C2: when `_get_directory()` raises `ArtifactError` (ref or top-level
artifact directory missing), `cached()` returns `false`; any other error
(`Malformed`, `IOFailed`, ...) raised there is propagated unchanged. -/
theorem cached_error_handling (a : Artifact) (e : Err)
    (h : a.rootResult = .error e) :
    a.cached = if e = Err.artifactError then .ok false else .error e := by
  unfold Artifact.cached
  rw [h]
  cases e <;> rfl

/-- Witness for C2: a handle whose root lookup raises `ArtifactError` is
reported uncached, while `Malformed` propagates. -/
theorem cached_error_handling_witness :
    baseArtifact.cached = .ok false ∧
    ({ baseArtifact with rootResult := .error Err.malformed } : Artifact).cached
      = .error Err.malformed := by
  constructor
  · have h := cached_error_handling baseArtifact Err.artifactError rfl
    simpa using h
  · have h := cached_error_handling
      { baseArtifact with rootResult := .error Err.malformed } Err.malformed rfl
    simpa using h

/-- C9: every root tree assembled by `cache()` has `logs/` and `meta/`
children unconditionally, a `files/` child exactly when a collected-files
virtual directory was supplied, and a `buildtree/` child exactly when a
sandbox build directory was supplied. -/
theorem cache_root_children (a : Artifact) (sb cv : Option Tree)
    (br : Bool × String × Option String) (pd : YVal) (deps : List Dep)
    (lf : Option Nat) (ws : Bool) :
    (a.cache sb cv br pd deps lf ws).root.existsChild "logs" = true ∧
    (a.cache sb cv br pd deps lf ws).root.existsChild "meta" = true ∧
    (a.cache sb cv br pd deps lf ws).root.existsChild "files" = cv.isSome ∧
    (a.cache sb cv br pd deps lf ws).root.existsChild "buildtree" = sb.isSome := by
  cases sb <;> cases cv <;> exact ⟨rfl, rfl, rfl, rfl⟩

/-- Counterexample for C5: the commit procedure writes six metadata
documents, not five — already on the trivial concrete commit `cx5`. -/
theorem cache_meta_file_count_cx :
    cx5.metaFiles.length = 6 ∧ ¬ cx5.metaFiles.length = 5 := by
  exact ⟨rfl, by decide⟩

/-- C5 (amended): the commit procedure emits exactly the six well-known
YAML documents (`public.yaml`, `build-result.yaml`, `keys.yaml`,
`dependencies.yaml`, `workspaced.yaml`, `workspaced-dependencies.yaml`)
into the real `meta/` directory before importing it, and every root it
assembles is valid: `meta/` and all six files are present. -/
theorem cache_meta_files_amended (a : Artifact) (sb cv : Option Tree)
    (br : Bool × String × Option String) (pd : YVal) (deps : List Dep)
    (lf : Option Nat) (ws : Bool) :
    (a.cache sb cv br pd deps lf ws).metaFiles.map Prod.fst = wellKnownMetaFiles ∧
    validRoot (a.cache sb cv br pd deps lf ws).root = true := by
  exact ⟨rfl, rfl⟩

/-- Counterexample for C8: on `cx8` the `logs/` subtree exists and all of
its file blobs are locally present, yet `cached_logs()` returns `false`,
because the element itself is not cached — a further precondition the
claim denies. -/
theorem cached_logs_cx :
    cx8root.getChild "logs" = some cx8logs ∧
    containsDirectory cx8.casManifests cx8.casBlobs true cx8logs = true ∧
    cx8.cached_logs = .ok false := by
  exact ⟨rfl, rfl, rfl⟩

/-- C8 (amended): for a handle whose root reference resolves,
`cached_logs()` returns true iff the element is cached and the `logs/`
subtree is present in the manifest with all of its file blobs locally
present. -/
theorem cached_logs_amended (a : Artifact) (vdir : Tree)
    (h : a.rootResult = .ok vdir) :
    (a.cached_logs = .ok true ↔
      a.element_cached = true ∧
      ∃ lg, vdir.getChild "logs" = some lg ∧
        containsDirectory a.casManifests a.casBlobs true lg = true) := by
  unfold Artifact.cached_logs
  rw [h]
  cases hec : a.element_cached
  · simp
  · simp only [Bool.not_true, Bool.false_eq_true, if_false, true_and]
    cases hlg : vdir.getChild "logs"
    · simp
    · simp

/-- Witness for C8 (amended): on `w8` (cached element, fully present
logs) `cached_logs()` returns true. -/
theorem cached_logs_amended_witness : w8.cached_logs = .ok true := by
  have h := cached_logs_amended w8 cx8root rfl
  exact h.mpr ⟨rfl, cx8logs, rfl, rfl⟩

/-- C1: for a handle whose root reference resolves to a directory with a
`meta/` child, `cached()` returns true iff the `meta/` subtree is present
in the CAS with all file blobs, and either the manifest has no `files/`
child at all, or the `files/` child satisfies the materialization policy:
with `require_directories = false` it passes regardless; otherwise with
effective `require_files = false` (context flag or-ed with the element's
requirement) its manifests must be locally present; otherwise its file
blobs must be locally present as well. -/
theorem cached_characterization (a : Artifact) (vdir meta : Tree)
    (hroot : a.rootResult = .ok vdir)
    (hmeta : vdir.getChild "meta" = some meta) :
    (a.cached = .ok true ↔
      containsDirectory a.casManifests a.casBlobs true meta = true ∧
      (vdir.getChild "files" = none ∨
       ∃ files, vdir.getChild "files" = some files ∧
         (a.ctx.require_artifact_directories = false ∨
          ((a.ctx.require_artifact_files || a.files_required) = false ∧
            containsDirectory a.casManifests a.casBlobs false files = true) ∨
          ((a.ctx.require_artifact_files || a.files_required) = true ∧
            containsDirectory a.casManifests a.casBlobs true files = true)))) := by
  unfold Artifact.cached
  simp only [hroot, hmeta]
  cases hcd : containsDirectory a.casManifests a.casBlobs true meta
  · simp
  · simp only [Bool.not_true, Bool.false_eq_true, if_false, true_and]
    unfold Tree.existsChild
    cases hgf : vdir.getChild "files"
    · simp
    · rename_i files
      simp only [Option.isSome_some, if_true]
      cases hrd : a.ctx.require_artifact_directories
      · simp
      · cases hrf : (a.ctx.require_artifact_files || a.files_required)
        · cases hcf : containsDirectory a.casManifests a.casBlobs false files <;>
            simp [hcf]
        · cases hcf : containsDirectory a.casManifests a.casBlobs true files <;>
            simp [hcf]

/-- Witness for C1: a concrete artifact whose root holds only a fully
present `meta/` child (no `files/`) is cached. -/
theorem cached_characterization_witness : w1.cached = .ok true := by
  have h := cached_characterization w1 w1root w1meta rfl rfl
  exact h.mpr ⟨rfl, Or.inl rfl⟩

/-- C3: when `meta/` lacks `build-result.yaml`, `load_build_result()`
returns exactly `(true, "succeeded", null)` without error and without
touching the handle; when the file is present and parses, it returns the
parsed `(success, description, detail)` triple; and a missing `detail`
field parses to null. -/
theorem load_build_result_spec (a : Artifact) (meta : List (String × YVal))
    (hm : a.metaResult = .ok meta) :
    (assocLookup meta "build-result.yaml" = none →
      a.load_build_result = .ok ((true, some "succeeded", none), a)) ∧
    (∀ y b desc det,
      assocLookup meta "build-result.yaml" = some y →
      node_get_bool y "success" = .ok b →
      node_get_str_default y "description" = .ok desc →
      node_get_str_default y "detail" = .ok det →
      a.load_build_result =
        .ok ((b, desc, det),
          { a with parseLog := a.parseLog ++ ["build-result.yaml"] })) ∧
    (∀ m, assocLookup m "detail" = none →
      node_get_str_default (.ymap m) "detail" = .ok none) := by
  refine ⟨?_, ?_, ?_⟩
  · intro hlk
    unfold Artifact.load_build_result
    simp only [hm, hlk]
  · intro y b desc det hlk hb hd hdet
    unfold Artifact.load_build_result
    simp only [hm, hlk, hb, hd, hdet]
  · intro m hlk
    unfold node_get_str_default
    simp only [hlk]

/-- Witness for C3: a handle without `build-result.yaml` yields the
default triple; one with the file yields the parsed triple (detail
defaults to null). -/
theorem load_build_result_spec_witness :
    ({ baseArtifact with metaResult := .ok [] } : Artifact).load_build_result
      = .ok ((true, some "succeeded", none), { baseArtifact with metaResult := .ok [] }) ∧
    cx4.load_build_result
      = .ok ((true, some "succeeded", none),
          { cx4 with parseLog := ["build-result.yaml"] }) := by
  constructor
  · exact (load_build_result_spec { baseArtifact with metaResult := .ok [] } [] rfl).1 rfl
  · have h := (load_build_result_spec cx4
      [("build-result.yaml",
        .ymap [("success", .ybool true), ("description", .ystr "succeeded")])] rfl).2.1
      (.ymap [("success", .ybool true), ("description", .ystr "succeeded")])
      true (some "succeeded") none rfl rfl rfl rfl
    simpa [cx4, baseArtifact] using h

/-- C6: committing an artifact with strong and weak keys `(s, w)` and then
calling `get_metadata_keys()` on the committed artifact returns `(s, w)`;
and every other metadata accessor likewise reads back exactly what
`cache()` committed: the dependency mapping, the workspaced flag, the
workspaced-dependency names, the build-result triple (detail null when
omitted), and the public data. -/
theorem commit_metadata_roundtrip (a : Artifact) (s w : String)
    (hs : a.cache_key = some s) (hw : a.weak_cache_key = some w)
    (sb cv : Option Tree) (br : Bool × String × Option String) (pd : YVal)
    (deps : List Dep) (lf : Option Nat) (ws : Bool) :
    (∃ b, (a.afterCommit (a.cache sb cv br pd deps lf ws)).get_metadata_keys
        = .ok ((s, w), b)) ∧
    (∃ b, (a.afterCommit (a.cache sb cv br pd deps lf ws)).get_metadata_dependencies
        = .ok (.ymap (deps.map (fun e => (e.name, .ystr e.key))), b)) ∧
    (∃ b, (a.afterCommit (a.cache sb cv br pd deps lf ws)).get_metadata_workspaced
        = .ok (ws, b)) ∧
    (∃ b, (a.afterCommit (a.cache sb cv br pd deps lf ws)).get_metadata_workspaced_dependencies
        = .ok ((deps.filter (fun e => e.workspaced)).map (fun e => .ystr e.name), b)) ∧
    (∃ b, (a.afterCommit (a.cache sb cv br pd deps lf ws)).load_build_result
        = .ok ((br.1, some br.2.1, br.2.2), b)) ∧
    (∃ b, (a.afterCommit (a.cache sb cv br pd deps lf ws)).load_public_data
        = .ok (pd, b)) := by
  obtain ⟨brs, brd, brdet⟩ := br
  refine ⟨?_, ⟨_, rfl⟩, ⟨_, rfl⟩, ⟨_, rfl⟩, ?_, ⟨_, rfl⟩⟩
  · unfold Artifact.get_metadata_keys Artifact.afterCommit Artifact.cache
    simp only [hs, hw]
    exact ⟨_, rfl⟩
  · cases brdet <;> exact ⟨_, rfl⟩

/-- Witness for C6: a concrete commit with keys `("sk", "wk")` reads back
all six metadata values. -/
theorem commit_metadata_roundtrip_witness :
    (∃ b, (w6.afterCommit (w6.cache none none (true, "done", none) (.ymap []) [] none false)).get_metadata_keys
        = .ok (("sk", "wk"), b)) ∧
    (∃ b, (w6.afterCommit (w6.cache none none (true, "done", none) (.ymap []) [] none false)).get_metadata_dependencies
        = .ok (.ymap [], b)) ∧
    (∃ b, (w6.afterCommit (w6.cache none none (true, "done", none) (.ymap []) [] none false)).get_metadata_workspaced
        = .ok (false, b)) ∧
    (∃ b, (w6.afterCommit (w6.cache none none (true, "done", none) (.ymap []) [] none false)).get_metadata_workspaced_dependencies
        = .ok ([], b)) ∧
    (∃ b, (w6.afterCommit (w6.cache none none (true, "done", none) (.ymap []) [] none false)).load_build_result
        = .ok ((true, some "done", none), b)) ∧
    (∃ b, (w6.afterCommit (w6.cache none none (true, "done", none) (.ymap []) [] none false)).load_public_data
        = .ok (.ymap [], b)) :=
  commit_metadata_roundtrip w6 "sk" "wk" rfl rfl none none (true, "done", none)
    (.ymap []) [] none false

/-- A successful `get_metadata_keys` call either hits the memo and leaves
the handle untouched, or misses and updates exactly the memo field (and the
ghost parse log). -/
theorem get_metadata_keys_shape (a : Artifact) (v : String × String) (a' : Artifact)
    (h : a.get_metadata_keys = .ok (v, a')) :
    (a.metadata_keys = some v ∧ a' = a) ∨
    (a.metadata_keys = none ∧
      a' = { a with
             metadata_keys := some v,
             parseLog := a.parseLog ++ ["keys.yaml"] }) := by
  unfold Artifact.get_metadata_keys at h
  cases hmk : a.metadata_keys
  case some k =>
    simp only [hmk, Except.ok.injEq, Prod.mk.injEq] at h
    exact Or.inl ⟨by rw [h.1], h.2.symm⟩
  case none =>
    simp only [hmk] at h
    cases hm : a.metaResult
    case error e =>
      simp only [hm] at h
      exact Except.noConfusion h
    case ok meta =>
      simp only [hm] at h
      cases hlk : assocLookup meta "keys.yaml"
      case none =>
        simp only [hlk] at h
        exact Except.noConfusion h
      case some data =>
        simp only [hlk] at h
        cases hsg : node_get_str data "strong"
        case error e =>
          simp only [hsg] at h
          exact Except.noConfusion h
        case ok sk =>
          simp only [hsg] at h
          cases hwk : node_get_str data "weak"
          case error e =>
            simp only [hwk] at h
            exact Except.noConfusion h
          case ok wk =>
            simp only [hwk, Except.ok.injEq, Prod.mk.injEq] at h
            refine Or.inr ⟨rfl, ?_⟩
            rw [← h.1]
            exact h.2.symm

/-- A successful `get_metadata_dependencies` call either hits the memo or
updates exactly the memo field (and the ghost parse log). -/
theorem get_metadata_dependencies_shape (a : Artifact) (v : YVal) (a' : Artifact)
    (h : a.get_metadata_dependencies = .ok (v, a')) :
    (a.metadata_dependencies = some v ∧ a' = a) ∨
    (a.metadata_dependencies = none ∧
      a' = { a with
             metadata_dependencies := some v,
             parseLog := a.parseLog ++ ["dependencies.yaml"] }) := by
  unfold Artifact.get_metadata_dependencies at h
  cases hmk : a.metadata_dependencies
  case some k =>
    simp only [hmk, Except.ok.injEq, Prod.mk.injEq] at h
    exact Or.inl ⟨by rw [h.1], h.2.symm⟩
  case none =>
    simp only [hmk] at h
    cases hm : a.metaResult
    case error e =>
      simp only [hm] at h
      exact Except.noConfusion h
    case ok meta =>
      simp only [hm] at h
      cases hlk : assocLookup meta "dependencies.yaml"
      case none =>
        simp only [hlk] at h
        exact Except.noConfusion h
      case some data =>
        simp only [hlk, Except.ok.injEq, Prod.mk.injEq] at h
        refine Or.inr ⟨rfl, ?_⟩
        rw [← h.1]
        exact h.2.symm

/-- A successful `get_metadata_workspaced` call either hits the memo or
updates exactly the memo field (and the ghost parse log). -/
theorem get_metadata_workspaced_shape (a : Artifact) (v : Bool) (a' : Artifact)
    (h : a.get_metadata_workspaced = .ok (v, a')) :
    (a.metadata_workspaced = some v ∧ a' = a) ∨
    (a.metadata_workspaced = none ∧
      a' = { a with
             metadata_workspaced := some v,
             parseLog := a.parseLog ++ ["workspaced.yaml"] }) := by
  unfold Artifact.get_metadata_workspaced at h
  cases hmk : a.metadata_workspaced
  case some k =>
    simp only [hmk, Except.ok.injEq, Prod.mk.injEq] at h
    exact Or.inl ⟨by rw [h.1], h.2.symm⟩
  case none =>
    simp only [hmk] at h
    cases hm : a.metaResult
    case error e =>
      simp only [hm] at h
      exact Except.noConfusion h
    case ok meta =>
      simp only [hm] at h
      cases hlk : assocLookup meta "workspaced.yaml"
      case none =>
        simp only [hlk] at h
        exact Except.noConfusion h
      case some data =>
        simp only [hlk] at h
        cases hb : node_get_bool data "workspaced"
        case error e =>
          simp only [hb] at h
          exact Except.noConfusion h
        case ok b =>
          simp only [hb, Except.ok.injEq, Prod.mk.injEq] at h
          refine Or.inr ⟨rfl, ?_⟩
          rw [← h.1]
          exact h.2.symm

/-- A successful `get_metadata_workspaced_dependencies` call either hits
the memo or updates exactly the memo field (and the ghost parse log). -/
theorem get_metadata_workspaced_dependencies_shape (a : Artifact)
    (v : List YVal) (a' : Artifact)
    (h : a.get_metadata_workspaced_dependencies = .ok (v, a')) :
    (a.metadata_workspaced_dependencies = some v ∧ a' = a) ∨
    (a.metadata_workspaced_dependencies = none ∧
      a' = { a with
             metadata_workspaced_dependencies := some v,
             parseLog := a.parseLog ++ ["workspaced-dependencies.yaml"] }) := by
  unfold Artifact.get_metadata_workspaced_dependencies at h
  cases hmk : a.metadata_workspaced_dependencies
  case some k =>
    simp only [hmk, Except.ok.injEq, Prod.mk.injEq] at h
    exact Or.inl ⟨by rw [h.1], h.2.symm⟩
  case none =>
    simp only [hmk] at h
    cases hm : a.metaResult
    case error e =>
      simp only [hm] at h
      exact Except.noConfusion h
    case ok meta =>
      simp only [hm] at h
      cases hlk : assocLookup meta "workspaced-dependencies.yaml"
      case none =>
        simp only [hlk] at h
        exact Except.noConfusion h
      case some data =>
        simp only [hlk] at h
        cases hl : node_get_list data "workspaced-dependencies"
        case error e =>
          simp only [hl] at h
          exact Except.noConfusion h
        case ok l =>
          simp only [hl, Except.ok.injEq, Prod.mk.injEq] at h
          refine Or.inr ⟨rfl, ?_⟩
          rw [← h.1]
          exact h.2.symm

/-- A memo hit on `get_metadata_keys` returns the stored tuple and leaves
the handle untouched. -/
theorem get_metadata_keys_memo (a : Artifact) (v : String × String)
    (h : a.metadata_keys = some v) : a.get_metadata_keys = .ok (v, a) := by
  unfold Artifact.get_metadata_keys
  rw [h]

/-- A memo hit on `get_metadata_dependencies` returns the stored node and
leaves the handle untouched. -/
theorem get_metadata_dependencies_memo (a : Artifact) (v : YVal)
    (h : a.metadata_dependencies = some v) :
    a.get_metadata_dependencies = .ok (v, a) := by
  unfold Artifact.get_metadata_dependencies
  rw [h]

/-- A memo hit on `get_metadata_workspaced` returns the stored flag and
leaves the handle untouched. -/
theorem get_metadata_workspaced_memo (a : Artifact) (v : Bool)
    (h : a.metadata_workspaced = some v) :
    a.get_metadata_workspaced = .ok (v, a) := by
  unfold Artifact.get_metadata_workspaced
  rw [h]

/-- A memo hit on `get_metadata_workspaced_dependencies` returns the
stored list and leaves the handle untouched. -/
theorem get_metadata_workspaced_dependencies_memo (a : Artifact) (v : List YVal)
    (h : a.metadata_workspaced_dependencies = some v) :
    a.get_metadata_workspaced_dependencies = .ok (v, a) := by
  unfold Artifact.get_metadata_workspaced_dependencies
  rw [h]

/-- Counterexample for C4: `load_build_result` is a metadata accessor with
no memo field — on the concrete handle `cx4` the second call parses
`build-result.yaml` again (the ghost parse log grows at every call), so not
every accessor parses its YAML file at most once per handle. -/
theorem metadata_parse_once_cx :
    (lbrStep cx4).parseLog = ["build-result.yaml"] ∧
    (lbrStep (lbrStep cx4)).parseLog = ["build-result.yaml", "build-result.yaml"] := by
  exact ⟨rfl, rfl⟩

/-- C4 (amended): the four `get_metadata_*` accessors parse their YAML file
at most once per handle — a successful call leaves the handle in a state
where repeating the call returns the same value and the same state (no
re-parse) — while `load_build_result` and `load_public_data` have no memo
field and parse their file on every call (each successful parsing call
appends to the parse log). -/
theorem metadata_accessors_cache_once (a : Artifact) :
    (∀ v a', a.get_metadata_keys = .ok (v, a') →
       a'.get_metadata_keys = .ok (v, a')) ∧
    (∀ v a', a.get_metadata_dependencies = .ok (v, a') →
       a'.get_metadata_dependencies = .ok (v, a')) ∧
    (∀ v a', a.get_metadata_workspaced = .ok (v, a') →
       a'.get_metadata_workspaced = .ok (v, a')) ∧
    (∀ v a', a.get_metadata_workspaced_dependencies = .ok (v, a') →
       a'.get_metadata_workspaced_dependencies = .ok (v, a')) ∧
    (∀ meta y v a', a.metaResult = .ok meta →
       assocLookup meta "build-result.yaml" = some y →
       a.load_build_result = .ok (v, a') →
       a'.parseLog = a.parseLog ++ ["build-result.yaml"]) ∧
    (∀ v a', a.load_public_data = .ok (v, a') →
       a'.parseLog = a.parseLog ++ ["public.yaml"]) := by
  refine ⟨?_, ?_, ?_, ?_, ?_, ?_⟩
  · intro v a' h
    rcases get_metadata_keys_shape a v a' h with ⟨hk, rfl⟩ | ⟨hk, rfl⟩
    · exact get_metadata_keys_memo _ v hk
    · exact get_metadata_keys_memo _ v rfl
  · intro v a' h
    rcases get_metadata_dependencies_shape a v a' h with ⟨hk, rfl⟩ | ⟨hk, rfl⟩
    · exact get_metadata_dependencies_memo _ v hk
    · exact get_metadata_dependencies_memo _ v rfl
  · intro v a' h
    rcases get_metadata_workspaced_shape a v a' h with ⟨hk, rfl⟩ | ⟨hk, rfl⟩
    · exact get_metadata_workspaced_memo _ v hk
    · exact get_metadata_workspaced_memo _ v rfl
  · intro v a' h
    rcases get_metadata_workspaced_dependencies_shape a v a' h with ⟨hk, rfl⟩ | ⟨hk, rfl⟩
    · exact get_metadata_workspaced_dependencies_memo _ v hk
    · exact get_metadata_workspaced_dependencies_memo _ v rfl
  · intro meta y v a' hm hlk h
    unfold Artifact.load_build_result at h
    simp only [hm, hlk] at h
    cases hb : node_get_bool y "success"
    · simp only [hb] at h
      exact Except.noConfusion h
    · rename_i b
      simp only [hb] at h
      cases hd : node_get_str_default y "description"
      · simp only [hd] at h
        exact Except.noConfusion h
      · rename_i ds
        simp only [hd] at h
        cases hdt : node_get_str_default y "detail"
        · simp only [hdt] at h
          exact Except.noConfusion h
        · rename_i dt
          simp only [hdt, Except.ok.injEq, Prod.mk.injEq] at h
          obtain ⟨h1, h2⟩ := h
          subst h2
          rfl
  · intro v a' h
    unfold Artifact.load_public_data at h
    cases hm : a.metaResult
    · simp only [hm] at h
      exact Except.noConfusion h
    · rename_i meta
      simp only [hm] at h
      cases hlk : assocLookup meta "public.yaml"
      · simp only [hlk] at h
        exact Except.noConfusion h
      · rename_i data
        simp only [hlk, Except.ok.injEq, Prod.mk.injEq] at h
        obtain ⟨h1, h2⟩ := h
        subst h2
        rfl

/-- Witness for C4 (amended): repeating `get_metadata_keys` on the handle
produced by a first call returns the cached tuple and the unchanged
handle. -/
theorem metadata_accessors_cache_once_witness :
    w10k.get_metadata_keys = .ok (("sk", "wk"), w10k) :=
  (metadata_accessors_cache_once w10).1 ("sk", "wk") w10k rfl

/-- C10: each `get_metadata_*` accessor mutates only its own memo field:
after a successful call every other memo field, the element- and key-level
fields and the underlying store are unchanged, and a memo field already set
is returned as-is and never changed. -/
theorem metadata_accessors_frame (a : Artifact) :
    (∀ v a', a.get_metadata_keys = .ok (v, a') →
      (a'.metadata_dependencies = a.metadata_dependencies ∧
       a'.metadata_workspaced = a.metadata_workspaced ∧
       a'.metadata_workspaced_dependencies = a.metadata_workspaced_dependencies ∧
       a'.cache_key = a.cache_key ∧
       a'.weak_cache_key = a.weak_cache_key ∧
       a'.element_cached = a.element_cached ∧
       a'.files_required = a.files_required ∧
       a'.ctx = a.ctx ∧
       a'.rootResult = a.rootResult ∧
       a'.metaResult = a.metaResult ∧
       a'.casManifests = a.casManifests ∧
       a'.casBlobs = a.casBlobs) ∧
      (∀ k, a.metadata_keys = some k → a'.metadata_keys = some k ∧ v = k)) ∧
    (∀ v a', a.get_metadata_dependencies = .ok (v, a') →
      (a'.metadata_keys = a.metadata_keys ∧
       a'.metadata_workspaced = a.metadata_workspaced ∧
       a'.metadata_workspaced_dependencies = a.metadata_workspaced_dependencies ∧
       a'.cache_key = a.cache_key ∧
       a'.weak_cache_key = a.weak_cache_key ∧
       a'.element_cached = a.element_cached ∧
       a'.files_required = a.files_required ∧
       a'.ctx = a.ctx ∧
       a'.rootResult = a.rootResult ∧
       a'.metaResult = a.metaResult ∧
       a'.casManifests = a.casManifests ∧
       a'.casBlobs = a.casBlobs) ∧
      (∀ k, a.metadata_dependencies = some k →
        a'.metadata_dependencies = some k ∧ v = k)) ∧
    (∀ v a', a.get_metadata_workspaced = .ok (v, a') →
      (a'.metadata_keys = a.metadata_keys ∧
       a'.metadata_dependencies = a.metadata_dependencies ∧
       a'.metadata_workspaced_dependencies = a.metadata_workspaced_dependencies ∧
       a'.cache_key = a.cache_key ∧
       a'.weak_cache_key = a.weak_cache_key ∧
       a'.element_cached = a.element_cached ∧
       a'.files_required = a.files_required ∧
       a'.ctx = a.ctx ∧
       a'.rootResult = a.rootResult ∧
       a'.metaResult = a.metaResult ∧
       a'.casManifests = a.casManifests ∧
       a'.casBlobs = a.casBlobs) ∧
      (∀ k, a.metadata_workspaced = some k →
        a'.metadata_workspaced = some k ∧ v = k)) ∧
    (∀ v a', a.get_metadata_workspaced_dependencies = .ok (v, a') →
      (a'.metadata_keys = a.metadata_keys ∧
       a'.metadata_dependencies = a.metadata_dependencies ∧
       a'.metadata_workspaced = a.metadata_workspaced ∧
       a'.cache_key = a.cache_key ∧
       a'.weak_cache_key = a.weak_cache_key ∧
       a'.element_cached = a.element_cached ∧
       a'.files_required = a.files_required ∧
       a'.ctx = a.ctx ∧
       a'.rootResult = a.rootResult ∧
       a'.metaResult = a.metaResult ∧
       a'.casManifests = a.casManifests ∧
       a'.casBlobs = a.casBlobs) ∧
      (∀ k, a.metadata_workspaced_dependencies = some k →
        a'.metadata_workspaced_dependencies = some k ∧ v = k)) := by
  refine ⟨?_, ?_, ?_, ?_⟩
  · intro v a' h
    rcases get_metadata_keys_shape a v a' h with ⟨hk, rfl⟩ | ⟨hk, rfl⟩
    · refine ⟨⟨rfl, rfl, rfl, rfl, rfl, rfl, rfl, rfl, rfl, rfl, rfl, rfl⟩, ?_⟩
      intro k hkk
      exact ⟨hkk, Option.some.inj (hk.symm.trans hkk)⟩
    · refine ⟨⟨rfl, rfl, rfl, rfl, rfl, rfl, rfl, rfl, rfl, rfl, rfl, rfl⟩, ?_⟩
      intro k hkk
      exact Option.noConfusion (hk.symm.trans hkk)
  · intro v a' h
    rcases get_metadata_dependencies_shape a v a' h with ⟨hk, rfl⟩ | ⟨hk, rfl⟩
    · refine ⟨⟨rfl, rfl, rfl, rfl, rfl, rfl, rfl, rfl, rfl, rfl, rfl, rfl⟩, ?_⟩
      intro k hkk
      exact ⟨hkk, Option.some.inj (hk.symm.trans hkk)⟩
    · refine ⟨⟨rfl, rfl, rfl, rfl, rfl, rfl, rfl, rfl, rfl, rfl, rfl, rfl⟩, ?_⟩
      intro k hkk
      exact Option.noConfusion (hk.symm.trans hkk)
  · intro v a' h
    rcases get_metadata_workspaced_shape a v a' h with ⟨hk, rfl⟩ | ⟨hk, rfl⟩
    · refine ⟨⟨rfl, rfl, rfl, rfl, rfl, rfl, rfl, rfl, rfl, rfl, rfl, rfl⟩, ?_⟩
      intro k hkk
      exact ⟨hkk, Option.some.inj (hk.symm.trans hkk)⟩
    · refine ⟨⟨rfl, rfl, rfl, rfl, rfl, rfl, rfl, rfl, rfl, rfl, rfl, rfl⟩, ?_⟩
      intro k hkk
      exact Option.noConfusion (hk.symm.trans hkk)
  · intro v a' h
    rcases get_metadata_workspaced_dependencies_shape a v a' h with ⟨hk, rfl⟩ | ⟨hk, rfl⟩
    · refine ⟨⟨rfl, rfl, rfl, rfl, rfl, rfl, rfl, rfl, rfl, rfl, rfl, rfl⟩, ?_⟩
      intro k hkk
      exact ⟨hkk, Option.some.inj (hk.symm.trans hkk)⟩
    · refine ⟨⟨rfl, rfl, rfl, rfl, rfl, rfl, rfl, rfl, rfl, rfl, rfl, rfl⟩, ?_⟩
      intro k hkk
      exact Option.noConfusion (hk.symm.trans hkk)

/-- Witness for C10: the first `get_metadata_keys` call on the concrete
handle `w10` leaves every other memo field and the collaborator state
untouched. -/
theorem metadata_accessors_frame_witness :
    w10k.metadata_dependencies = w10.metadata_dependencies ∧
    w10k.metadata_workspaced = w10.metadata_workspaced ∧
    w10k.metadata_workspaced_dependencies = w10.metadata_workspaced_dependencies ∧
    w10k.cache_key = w10.cache_key ∧
    w10k.weak_cache_key = w10.weak_cache_key ∧
    w10k.element_cached = w10.element_cached ∧
    w10k.files_required = w10.files_required ∧
    w10k.ctx = w10.ctx ∧
    w10k.rootResult = w10.rootResult ∧
    w10k.metaResult = w10.metaResult ∧
    w10k.casManifests = w10.casManifests ∧
    w10k.casBlobs = w10.casBlobs :=
  ((metadata_accessors_frame w10).1 ("sk", "wk") w10k rfl).1

end Buildstream
